import Mathlib

/-!
Verification of the aitaroapp backend (src/api.py) against its specification.

The Python module is a FastAPI app over an SQLite store.  We embed it
shallowly:

* a row of the `users` table becomes a `UserRow` with nullable columns as
  `Option` fields (SQLite `NULL`, and the empty string treated as falsy by
  `if user.get('subscription_until'):`, both map to `none`);
* the `referrals` table becomes a list of `(referrer_id, referred_id)` pairs;
* the JSON dictionaries the endpoints return become association lists
  `List (String × JValue)`, so that a key that is absent from a returned
  dictionary is visibly absent (`List.lookup` returns `none`);
* the wall clock (`datetime.now()`) and timestamps are integers passed
  explicitly;
* a storage-layer failure (any exception inside the `try` of
  `get_user_data` / `increment_readings`) is modelled by passing `none`
  instead of `some db`: the `except` branch of the Python code is the
  `none` branch of the Lean function;
* the outbound Telegram calls (`send_message_to_user`) are modelled by
  returning the list of `(chat_id, text)` messages the handler attempts to
  send, and the result of `create_stars_invoice` (an HTTP call) is an
  explicit `Option String` argument.
-/

/-- A JSON-like value, the codomain of the dictionaries `api.py` builds. -/
inductive JValue where
  | null : JValue
  | bool (b : Bool) : JValue
  | int (n : Int) : JValue
  | str (s : String) : JValue
deriving DecidableEq, Repr

/-- A row of the `users` table (`SELECT * FROM users WHERE user_id = ?`).
Nullable columns are `Option`; see the module comment. -/
structure UserRow where
  user_id : Int
  first_name : Option String
  zodiac_sign : Option String
  subscription_until : Option Int
  free_readings_used : Option Int
  referral_bonus_days : Option Int
deriving DecidableEq, Repr

/-- The SQLite database: the `users` table and the `referrals` table. -/
structure Database where
  users : List UserRow
  referrals : List (Int × Int)
deriving DecidableEq, Repr

/-- Embed a nullable integer column into a JSON value. -/
def jOfOptInt : Option Int → JValue
  | some n => .int n
  | none => .null

/-- Embed a nullable string column into a JSON value. -/
def jOfOptStr : Option String → JValue
  | some s => .str s
  | none => .null

/-- The fixed 12-entry zodiac table of `get_user_data` (key, label, emoji). -/
def zodiac_map : List (String × String × String) :=
  [("aries", "Овен", "♈"), ("taurus", "Телец", "♉"),
   ("gemini", "Близнецы", "♊"), ("cancer", "Рак", "♋"),
   ("leo", "Лев", "♌"), ("virgo", "Дева", "♍"),
   ("libra", "Весы", "♎"), ("scorpio", "Скорпион", "♏"),
   ("sagittarius", "Стрелец", "♐"), ("capricorn", "Козерог", "♑"),
   ("aquarius", "Водолей", "♒"), ("pisces", "Рыбы", "♓")]

/-- The dictionary `get_user_data` returns when no `users` row matches
(`if not user:` branch, api.py lines 52-59). -/
def absent_profile (user_id : Int) : List (String × JValue) :=
  [("userId", .int user_id),
   ("isPremium", .bool false),
   ("freeUsed", .int 0),
   ("readings", .int 0),
   ("bonusDays", .int 0)]

/-- The dictionary `get_user_data` returns from its `except` branch
(api.py lines 99-106).  Note: it has no `bonusDays` key. -/
def error_profile (user_id : Int) : List (String × JValue) :=
  [("userId", .int user_id),
   ("isPremium", .bool false),
   ("freeUsed", .int 0),
   ("readings", .int 0)]

/-- `SELECT * FROM users WHERE user_id = ?` followed by `fetchone`. -/
def findUser (db : Database) (user_id : Int) : Option UserRow :=
  db.users.find? (fun r => r.user_id == user_id)

/-- `SELECT COUNT(*) FROM referrals WHERE referrer_id = ?`. -/
def countReferrals (db : Database) (user_id : Int) : Nat :=
  (db.referrals.filter (fun p => p.1 == user_id)).length

/-- `get_user_data` (api.py lines 41-106).  `db = none` models a storage
failure caught by the `except` clause; `now` is `datetime.now()`.
The premium check `sub_until > datetime.now()` is strict; the zodiac lookup
`zodiac_map.get(zodiac_key, ('Овен', '♈'))` falls back to Aries whenever the
stored key (possibly `NULL`) is not one of the 12 entries. -/
def get_user_data (db : Option Database) (now : Int) (user_id : Int) :
    List (String × JValue) :=
  match db with
  | none => error_profile user_id
  | some d =>
    match findUser d user_id with
    | none => absent_profile user_id
    | some user =>
      let is_premium : Bool :=
        match user.subscription_until with
        | some t => decide (now < t)
        | none => false
      let zodiac_info : String × String :=
        (user.zodiac_sign.bind (fun k => List.lookup k zodiac_map)).getD ("Овен", "♈")
      let referrals := countReferrals d user_id
      [("userId", .int user_id),
       ("userName", jOfOptStr user.first_name),
       ("zodiac", .str zodiac_info.1),
       ("zodiacEmoji", .str zodiac_info.2),
       ("isPremium", .bool is_premium),
       ("freeUsed", jOfOptInt user.free_readings_used),
       ("readings", jOfOptInt user.free_readings_used),
       ("referrals", .int referrals),
       ("bonusDays", jOfOptInt user.referral_bonus_days)]

/-- `increment_readings` (api.py lines 109-119):
`UPDATE users SET free_readings_used = free_readings_used + 1 WHERE user_id = ?`.
A failure (`db = none`) is swallowed; a `NULL` counter stays `NULL`
(SQLite `NULL + 1` is `NULL`); a missing row is left untouched by `UPDATE`. -/
def increment_readings (user_id : Int) (db : Option Database) : Option Database :=
  match db with
  | none => none
  | some d =>
      some { d with
        users := d.users.map (fun r =>
          if r.user_id == user_id then
            { r with free_readings_used := r.free_readings_used.map (· + 1) }
          else r) }

/-- The text `handle_action` sends for `buy_subscription`. -/
def subscription_text : String :=
  "💳 Для оформления подписки нажми /start и выбери «⭐ Подписка»"

/-- `handle_action` (api.py lines 184-200), the `POST /api/action` endpoint.
Result: (response body, database after the call, messages sent via
`send_message_to_user`).  The request field `data` is never read by the
handler. -/
def handle_action (user_id : Int) (action : String)
    (_data : List (String × JValue)) (db : Option Database) :
    List (String × JValue) × Option Database × List (Int × String) :=
  if action == "use_reading" then
    ([("status", .str "ok")], increment_readings user_id db, [])
  else if action == "buy_subscription" then
    ([("status", .str "ok"), ("redirect", .str "bot")], db,
     [(user_id, subscription_text)])
  else
    ([("status", .str "ok")], db, [])

/-- The text `create_invoice` sends for `yookassa`. -/
def yookassa_text : String :=
  "💳 Переходи к оплате в боте: /start → Подписка"

/-- `create_invoice` (api.py lines 203-223), the `POST /api/create-invoice`
endpoint.  `invoice_link` is the result of the outbound
`create_stars_invoice` call (`none` when `BOT_TOKEN` is unset or the Bot API
call fails).  Result: (response body, messages sent). -/
def create_invoice (user_id : Int) (_product method : String)
    (invoice_link : Option String) :
    List (String × JValue) × List (Int × String) :=
  if method == "stars" then
    match invoice_link with
    | some link => ([("status", .str "ok"), ("invoice_link", .str link)], [])
    | none => ([("status", .str "error"), ("message", .str "Failed to create invoice")], [])
  else if method == "yookassa" then
    ([("status", .str "ok"), ("redirect", .str "bot")], [(user_id, yookassa_text)])
  else
    ([("status", .str "error")], [])

/-!
The init-data Verifier (spec §4.1).  The routine is part of the repository
but not among the provided sources (only `api.py` is); everything below the
next heading is therefore modelled from the specification's algorithm, which
fixes it bit-for-bit: first-`=` pair splitting, removal of the `hash` pair,
canonical string sorted by key and joined by newlines, the
`HMAC-SHA256("WebAppData", bot_token)` key derivation, a second HMAC-SHA256
rendered as lowercase hex, and comparison against the detached `hash`.
Bytes are `Nat` below 256; 32-bit words are `Nat` reduced `% 2^32`.
The constant-time character of the final comparison is a timing property
with no functional content, so it is modelled as plain string equality.
-/

/-- 32-bit truncation. -/
def w32 (n : Nat) : Nat := n % 4294967296

/-- Right rotation of a 32-bit word by `n` places. -/
def rotr (n x : Nat) : Nat := x / 2 ^ n + x % 2 ^ n * 2 ^ (32 - n)

/-- SHA-256 Ch(x,y,z). -/
def ch (x y z : Nat) : Nat := x &&& y ^^^ ((x ^^^ 4294967295) &&& z)

/-- SHA-256 Maj(x,y,z). -/
def maj (x y z : Nat) : Nat := x &&& y ^^^ x &&& z ^^^ y &&& z

/-- SHA-256 Σ₀. -/
def bsig0 (x : Nat) : Nat := rotr 2 x ^^^ rotr 13 x ^^^ rotr 22 x

/-- SHA-256 Σ₁. -/
def bsig1 (x : Nat) : Nat := rotr 6 x ^^^ rotr 11 x ^^^ rotr 25 x

/-- SHA-256 σ₀. -/
def ssig0 (x : Nat) : Nat := rotr 7 x ^^^ rotr 18 x ^^^ x / 8

/-- SHA-256 σ₁. -/
def ssig1 (x : Nat) : Nat := rotr 17 x ^^^ rotr 19 x ^^^ x / 1024

/-- The eight SHA-256 initial hash values. -/
def shaInit : List Nat :=
  [1779033703, 3144134277, 1013904242, 2773480762,
   1359893119, 2600822924, 528734635, 1541459225]

/-- The 64 SHA-256 round constants. -/
def shaK : List Nat :=
  [1116352408, 1899447441, 3049323471, 3921009573,
   961987163, 1508970993, 2453635748, 2870763221,
   3624381080, 310598401, 607225278, 1426881987,
   1925078388, 2162078206, 2614888103, 3248222580,
   3835390401, 4022224774, 264347078, 604807628,
   770255983, 1249150122, 1555081692, 1996064986,
   2554220882, 2821834349, 2952996808, 3210313671,
   3336571891, 3584528711, 113926993, 338241895,
   666307205, 773529912, 1294757372, 1396182291,
   1695183700, 1986661051, 2177026350, 2456956037,
   2730485921, 2820302411, 3259730800, 3345764771,
   3516065817, 3600352804, 4094571909, 275423344,
   430227734, 506948616, 659060556, 883997877,
   958139571, 1322822218, 1537002063, 1747873779,
   1955562222, 2024104815, 2227730452, 2361852424,
   2428436474, 2756734187, 3204031479, 3329325298]

/-- Big-endian 8-byte encoding of a 64-bit length. -/
def be64 (n : Nat) : List Nat :=
  [n / 2 ^ 56 % 256, n / 2 ^ 48 % 256, n / 2 ^ 40 % 256, n / 2 ^ 32 % 256,
   n / 2 ^ 24 % 256, n / 2 ^ 16 % 256, n / 2 ^ 8 % 256, n % 256]

/-- SHA-256 padding: append 0x80, zeros, then the 64-bit bit length, to a
multiple of 64 bytes. -/
def shaPad (msg : List Nat) : List Nat :=
  msg ++ [0x80] ++ List.replicate ((119 - msg.length % 64) % 64) 0
      ++ be64 (8 * msg.length)

/-- Group bytes into big-endian 32-bit words. -/
def bytesToWords : List Nat → List Nat
  | a :: b :: c :: d :: rest =>
      (a * 16777216 + b * 65536 + c * 256 + d) :: bytesToWords rest
  | _ => []

/-- Split a word list into 16-word blocks; the fuel bounds the recursion. -/
def chunk16 : Nat → List Nat → List (List Nat)
  | 0, _ => []
  | _, [] => []
  | fuel + 1, w :: ws => ((w :: ws).take 16) :: chunk16 fuel ((w :: ws).drop 16)

/-- Extend a block's message schedule; `acc` holds the words most recent
first, and `n` more words are to be produced. -/
def extendW : Nat → List Nat → List Nat
  | 0, acc => acc.reverse
  | n + 1, acc =>
      extendW n
        (w32 (ssig1 (acc.getD 1 0) + acc.getD 6 0 + ssig0 (acc.getD 14 0)
            + acc.getD 15 0) :: acc)

/-- The 64-word message schedule of a 16-word block. -/
def schedule (block : List Nat) : List Nat := extendW 48 block.reverse

/-- One SHA-256 round on the 8-word working state. -/
def shaRound : List Nat → Nat × Nat → List Nat
  | [a, b, c, d, e, f, g, h], (k, w) =>
      let t1 := w32 (h + bsig1 e + ch e f g + k + w)
      let t2 := w32 (bsig0 a + maj a b c)
      [w32 (t1 + t2), a, b, c, w32 (d + t1), e, f, g]
  | s, _ => s

/-- Compress one 16-word block into the running 8-word state. -/
def compress (st : List Nat) (block : List Nat) : List Nat :=
  let final := (shaK.zip (schedule block)).foldl shaRound st
  (st.zip final).map (fun p => w32 (p.1 + p.2))

/-- Serialize the 8-word state to 32 big-endian bytes. -/
def wordsToBytes (ws : List Nat) : List Nat :=
  (ws.map (fun w =>
    [w / 16777216 % 256, w / 65536 % 256, w / 256 % 256, w % 256])).flatten

/-- SHA-256 of a byte string. -/
def sha256 (msg : List Nat) : List Nat :=
  let padded := shaPad msg
  wordsToBytes ((chunk16 padded.length (bytesToWords padded)).foldl compress shaInit)

/-- HMAC-SHA256 (FIPS 198-1) with a 64-byte block size. -/
def hmacSha256 (key msg : List Nat) : List Nat :=
  let k0 := if 64 < key.length then sha256 key else key
  let kp := k0 ++ List.replicate (64 - k0.length) 0
  sha256 (kp.map (fun b => b ^^^ 0x5c) ++ sha256 (kp.map (fun b => b ^^^ 0x36) ++ msg))

/-- The hexadecimal digit characters. -/
def hexDigits : List Char := "0123456789abcdef".data

/-- Lowercase hex rendering of a byte string. -/
def hexLower (bs : List Nat) : String :=
  String.mk ((bs.map (fun b => [hexDigits.getD (b / 16) '0', hexDigits.getD (b % 16) '0'])).flatten)

/-- UTF-8 encoding of one code point. -/
def utf8Char (c : Nat) : List Nat :=
  if c < 128 then [c]
  else if c < 2048 then [192 + c / 64, 128 + c % 64]
  else if c < 65536 then [224 + c / 4096, 128 + c / 64 % 64, 128 + c % 64]
  else [240 + c / 262144, 128 + c / 4096 % 64, 128 + c / 64 % 64, 128 + c % 64]

/-- UTF-8 bytes of a string. -/
def strBytes (s : String) : List Nat :=
  (s.data.map (fun ch => utf8Char ch.val.toNat)).flatten

/-- Split a character list at every occurrence of `sep`, like Python's
single-character `str.split`; `acc` collects the current piece reversed. -/
def splitListOn (sep : Char) : List Char → List Char → List String
  | [], acc => [String.mk acc.reverse]
  | c :: cs, acc =>
      if c == sep then String.mk acc.reverse :: splitListOn sep cs []
      else splitListOn sep cs (c :: acc)

/-- Split a part at its FIRST `=` (spec §4.1 step 1), key before, value
after; `none` when the part has no `=` at all. -/
def splitFirstEq : List Char → List Char → Option (String × String)
  | [], _ => none
  | c :: cs, acc =>
      if c == '=' then some (String.mk acc.reverse, String.mk cs)
      else splitFirstEq cs (c :: acc)

/-- Split one `key=value` part on the FIRST `=` only (spec §4.1 step 1);
a part with no `=` at all is malformed. -/
def parsePair (part : String) : Option (String × String) :=
  splitFirstEq part.data []

/-- Parse every `&`-separated part; any malformed pair fails the parse. -/
def parsePairs : List String → Option (List (String × String))
  | [] => some []
  | p :: ps =>
    match parsePair p, parsePairs ps with
    | some kv, some rest => some (kv :: rest)
    | _, _ => none

/-- Parse a raw init-data string into its key/value pairs. -/
def parseInitData (raw : String) : Option (List (String × String)) :=
  parsePairs (splitListOn '&' raw.data [])

/-- Remove the pair with key `hash` (spec §4.1 step 2); `none` if absent. -/
def extractHash (pairs : List (String × String)) :
    Option (String × List (String × String)) :=
  match List.lookup "hash" pairs with
  | none => none
  | some h => some (h, pairs.filter (fun p => p.1 != "hash"))

/-- Byte-order comparison of strings, code point by code point. -/
def charListLe : List Char → List Char → Bool
  | [], _ => true
  | _ :: _, [] => false
  | a :: as, b :: bs =>
      if a.val < b.val then true
      else if b.val < a.val then false
      else charListLe as bs

/-- Insert a pair into a key-sorted list. -/
def insertPair (p : String × String) :
    List (String × String) → List (String × String)
  | [] => [p]
  | q :: qs =>
      if charListLe p.1.data q.1.data then p :: q :: qs else q :: insertPair p qs

/-- Sort pairs by key in ascending byte order (spec §4.1 step 3). -/
def sortPairs : List (String × String) → List (String × String)
  | [] => []
  | p :: ps => insertPair p (sortPairs ps)

/-- The canonical data-check string: remaining pairs sorted by key, each as
`key=value`, joined by a single newline, no trailing newline. -/
def dataCheckString (pairs : List (String × String)) : String :=
  String.intercalate "\n" ((sortPairs pairs).map (fun p => p.1 ++ "=" ++ p.2))

/-- Steps 4-5 of spec §4.1: the secret key is
HMAC-SHA256(key = "WebAppData", message = bot token), and the expected
signature is HMAC-SHA256(key = that digest, message = canonical string),
in lowercase hex. -/
def telegramHash (token : String) (pairs : List (String × String)) : String :=
  hexLower (hmacSha256 (hmacSha256 (strBytes "WebAppData") (strBytes token))
    (strBytes (dataCheckString pairs)))

/-- A JSON value, for the decoded `user` field. -/
inductive Json where
  | null : Json
  | bool (b : Bool) : Json
  | num (n : Int) : Json
  | str (s : String) : Json
  | arr (elems : List Json) : Json
  | obj (fields : List (String × Json)) : Json

/-- The opening-brace character, kept out of literals. -/
def lbrace : Char := Char.ofNat 123

/-- The closing-brace character, kept out of literals. -/
def rbrace : Char := Char.ofNat 125

/-- Drop leading JSON whitespace. -/
def skipWs : List Char → List Char
  | c :: cs =>
      if c == ' ' || c == '\n' || c == '\t' || c == '\r' then skipWs cs
      else c :: cs
  | [] => []

/-- Value of a hexadecimal digit character. -/
def hexVal (c : Char) : Option Nat :=
  if '0' ≤ c ∧ c ≤ '9' then some (c.toNat - 48)
  else if 'a' ≤ c ∧ c ≤ 'f' then some (c.toNat - 87)
  else if 'A' ≤ c ∧ c ≤ 'F' then some (c.toNat - 55)
  else none

/-- Parse the body of a JSON string after the opening quote, building `acc`;
supports the standard escapes and 4-digit `\u` code units. -/
def pStr : Nat → List Char → String → Option (String × List Char)
  | 0, _, _ => none
  | _ + 1, [], _ => none
  | fuel + 1, c :: cs, acc =>
      if c == '"' then some (acc, cs)
      else if c == '\\' then
        match cs with
        | [] => none
        | e :: cs2 =>
          if e == '"' then pStr fuel cs2 (acc.push '"')
          else if e == '\\' then pStr fuel cs2 (acc.push '\\')
          else if e == '/' then pStr fuel cs2 (acc.push '/')
          else if e == 'n' then pStr fuel cs2 (acc.push '\n')
          else if e == 't' then pStr fuel cs2 (acc.push '\t')
          else if e == 'r' then pStr fuel cs2 (acc.push '\r')
          else if e == 'b' then pStr fuel cs2 (acc.push (Char.ofNat 8))
          else if e == 'f' then pStr fuel cs2 (acc.push (Char.ofNat 12))
          else if e == 'u' then
            match cs2 with
            | a :: b :: c2 :: d :: cs3 =>
              match hexVal a, hexVal b, hexVal c2, hexVal d with
              | some x, some y, some z, some w =>
                  pStr fuel cs3 (acc.push (Char.ofNat (4096 * x + 256 * y + 16 * z + w)))
              | _, _, _, _ => none
            | _ => none
          else none
      else pStr fuel cs (acc.push c)

/-- Numeric value of a digit list. -/
def digitsVal (ds : List Char) : Nat :=
  ds.foldl (fun n c => 10 * n + (c.toNat - 48)) 0

/-- Parse a JSON integer (Telegram user objects carry only integers;
fractions and exponents are out of this model). -/
def pNum (cs : List Char) : Option (Json × List Char) :=
  match cs with
  | '-' :: rest =>
      let p := rest.span (fun c => c.isDigit)
      if p.1.isEmpty then none else some (.num (-(digitsVal p.1 : Int)), p.2)
  | _ =>
      let p := cs.span (fun c => c.isDigit)
      if p.1.isEmpty then none else some (.num (digitsVal p.1 : Int), p.2)

/-- What the JSON machine is asked to parse next: a value, the items of an
array (accumulated so far), or the members of an object. -/
inductive PReq where
  | val : PReq
  | arrItems (acc : List Json) : PReq
  | objItems (acc : List (String × Json)) : PReq

/-- One fueled recursive-descent JSON machine covering values, array items
and object members; structural on the fuel so it evaluates in the kernel. -/
def pJson : Nat → PReq → List Char → Option (Json × List Char)
  | 0, _, _ => none
  | fuel + 1, .val, cs =>
    (match skipWs cs with
     | [] => none
     | c :: rest =>
       if c == '"' then
         match pStr (fuel + 1) rest "" with
         | some (s, r) => some (.str s, r)
         | none => none
       else if c == '[' then
         match skipWs rest with
         | k :: r2 =>
             if k == ']' then some (.arr [], r2)
             else pJson fuel (.arrItems []) (k :: r2)
         | [] => none
       else if c == lbrace then
         match skipWs rest with
         | k :: r2 =>
             if k == rbrace then some (.obj [], r2)
             else pJson fuel (.objItems []) (k :: r2)
         | [] => none
       else if c == 't' then
         match rest with
         | 'r' :: 'u' :: 'e' :: r2 => some (.bool true, r2)
         | _ => none
       else if c == 'f' then
         match rest with
         | 'a' :: 'l' :: 's' :: 'e' :: r2 => some (.bool false, r2)
         | _ => none
       else if c == 'n' then
         match rest with
         | 'u' :: 'l' :: 'l' :: r2 => some (.null, r2)
         | _ => none
       else pNum (c :: rest))
  | fuel + 1, .arrItems acc, cs =>
    (match pJson fuel .val cs with
     | none => none
     | some (v, r) =>
       match skipWs r with
       | k :: r2 =>
           if k == ',' then pJson fuel (.arrItems (acc ++ [v])) r2
           else if k == ']' then some (.arr (acc ++ [v]), r2)
           else none
       | [] => none)
  | fuel + 1, .objItems acc, cs =>
    (match skipWs cs with
     | k :: r =>
       if k == '"' then
         match pStr (fuel + 1) r "" with
         | none => none
         | some (key, r2) =>
           match skipWs r2 with
           | c2 :: r3 =>
             if c2 == ':' then
               match pJson fuel .val r3 with
               | none => none
               | some (v, r4) =>
                 match skipWs r4 with
                 | c3 :: r5 =>
                     if c3 == ',' then pJson fuel (.objItems (acc ++ [(key, v)])) r5
                     else if c3 == rbrace then some (.obj (acc ++ [(key, v)]), r5)
                     else none
                 | [] => none
             else none
           | [] => none
       else none
     | [] => none)

/-- Parse a complete JSON document; any trailing non-whitespace fails. -/
def parseJson (s : String) : Option Json :=
  match pJson (2 * s.length + 8) .val s.data with
  | some (j, rest) => if (skipWs rest).isEmpty then some j else none
  | none => none

/-- Modelled from the spec: the repository's init-data verification routine
(spec §4.1), which is not among the provided source files.  Given the raw
init-data string and the bot secret token it returns the decoded `user`
object on a valid signature and `none` (the single "unauthenticated"
result) on any failure: unconfigured token, malformed pair, missing `hash`,
signature mismatch, missing `user` field, or malformed user JSON. -/
def verifyInitData (raw token : String) : Option Json :=
  if token = "" then none
  else
    match parseInitData raw with
    | none => none
    | some pairs =>
      match extractHash pairs with
      | none => none
      | some (h, rest) =>
        if h = telegramHash token rest then
          match List.lookup "user" rest with
          | some u => parseJson u
          | none => none
        else none

/-- A raw init-data payload differs from another in exactly one character:
same length, one position disagrees, all others agree. -/
def oneCharChange (a b : String) : Prop :=
  a.data.length = b.data.length ∧
  ∃ i, i < a.data.length ∧ a.data.getD i ' ' ≠ b.data.getD i ' ' ∧
    ∀ j, j ≠ i → a.data.getD j ' ' = b.data.getD j ' '

/-- Sample signed payload: the JSON of the embedded user field. -/
def sampleUserJson : String :=
  "\x7b\"id\":99281932,\"first_name\":\"Andrew\",\"username\":\"rogue\"\x7d"

/-- Sample bot secret token. -/
def sampleToken : String := "5768337691:AAH5YkoiEuPk8-FZa32hStHTqXiLPtAEhx8"

/-- The valid signature of the sample payload under the sample token
(computed by the HMAC chain above). -/
def sampleHashHex : String :=
  "d69908c36be9846fa0363e1c8dc0b81e142443042a5e8f332b5b85f96b7e7fb7"

/-- The sample raw init-data string, correctly signed. -/
def sampleRaw : String :=
  "query_id=AAHdF6IQAAAAAN0XohDhrOrc&user=" ++ sampleUserJson
    ++ "&auth_date=1700000000&hash=" ++ sampleHashHex

/-- The decoded user object embedded in the sample payload. -/
def sampleUser : Json :=
  .obj [("id", .num 99281932), ("first_name", .str "Andrew"),
        ("username", .str "rogue")]

/-! Theorems.  Helper lemmas first, then one theorem per claim (with its
counterexample and witness where required). -/

/-- A string obtained by changing one character of another differs from it. -/
theorem oneCharChange_ne {a b : String} (h : oneCharChange a b) : a ≠ b := by
  rintro rfl
  obtain ⟨-, i, -, hne, -⟩ := h
  exact hne rfl

/-- Mapping the conditional counter bump over the users list commutes with
looking the user up: the found row is the bumped one. -/
theorem find?_incr (l : List UserRow) (user_id : Int) :
    (l.map (fun r => if r.user_id == user_id
        then { r with free_readings_used := r.free_readings_used.map (· + 1) }
        else r)).find? (fun r => r.user_id == user_id)
      = (l.find? (fun r => r.user_id == user_id)).map
          (fun r => { r with free_readings_used := r.free_readings_used.map (· + 1) }) := by
  induction l with
  | nil => rfl
  | cons a l ih =>
    by_cases ha : (a.user_id == user_id) = true
    · simp only [List.map_cons, if_pos ha]
      simp [List.find?_cons, ha]
    · simp only [List.map_cons, if_neg ha]
      rw [List.find?_cons_of_neg (p := fun r : UserRow => r.user_id == user_id) _ ha,
        List.find?_cons_of_neg (p := fun r : UserRow => r.user_id == user_id) _ ha, ih]

/-- C10: every dictionary `get_user_data` returns — row present, row absent,
or storage failure — has its userId field equal to the queried id, and its
freeUsed field equal to its readings field. -/
theorem get_user_data_userId_freeUsed_readings
    (db : Option Database) (now user_id : Int) :
    (get_user_data db now user_id).lookup "userId" = some (.int user_id) ∧
    (get_user_data db now user_id).lookup "freeUsed" =
      (get_user_data db now user_id).lookup "readings" := by
  cases db with
  | none => exact ⟨rfl, rfl⟩
  | some d =>
    cases h : findUser d user_id with
    | none =>
      simp only [get_user_data, h]
      exact ⟨rfl, rfl⟩
    | some u =>
      simp only [get_user_data, h]
      exact ⟨rfl, rfl⟩

/-- C3 counterexample: at user id 7 the storage-failure profile and the
absent-user profile disagree on the bonusDays key, so the failure case does
not return "the same zero-value profile" as the absent-user case. -/
theorem get_user_data_failure_ne_absent :
    get_user_data none 0 7 ≠ get_user_data (some ⟨[], []⟩) 0 7 ∧
    (get_user_data none 0 7).lookup "bonusDays" = none ∧
    (get_user_data (some ⟨[], []⟩) 0 7).lookup "bonusDays" = some (.int 0) := by
  decide

/-- C3 (amended): a storage failure is caught and mapped to a well-formed
zero-value profile (userId echoed, isPremium false, freeUsed 0, readings 0)
rather than an error, but that profile is not the absent-user one: it lacks
the bonusDays key the absent-user profile carries. -/
theorem get_user_data_failure_profile (now user_id : Int) :
    get_user_data none now user_id =
      [("userId", .int user_id), ("isPremium", .bool false),
       ("freeUsed", .int 0), ("readings", .int 0)] ∧
    (get_user_data none now user_id).lookup "bonusDays" = none :=
  ⟨rfl, rfl⟩

/-- C5 counterexample: action compatibility with score 42 in the data
returns the bare ok acknowledgment with no score field at all, not
score 42 (nor a default 75). -/
theorem handle_action_compatibility_score_42 :
    handle_action 1 "compatibility" [("score", .int 42)] (some ⟨[], []⟩) =
      ([("status", .str "ok")], some ⟨[], []⟩, []) ∧
    (handle_action 1 "compatibility" [("score", .int 42)]
      (some ⟨[], []⟩)).1.lookup "score" = none := by
  decide

/-- C5 (amended): compatibility is not an action `handle_action` recognizes;
for every user, data map and database it falls through to the generic
acknowledgment: response exactly status ok with no score field, database
untouched, no message sent. -/
theorem handle_action_compatibility (user_id : Int)
    (data : List (String × JValue)) (db : Option Database) :
    handle_action user_id "compatibility" data db =
      ([("status", .str "ok")], db, []) ∧
    (handle_action user_id "compatibility" data db).1.lookup "score" = none :=
  ⟨rfl, rfl⟩

/-- C9: for every action string other than the two the dispatcher
recognizes (use_reading and buy_subscription), `handle_action` returns the
bare ok acknowledgment, leaves the database exactly as it was, and sends no
message. -/
theorem handle_action_unrecognized (user_id : Int) (action : String)
    (data : List (String × JValue)) (db : Option Database)
    (h1 : action ≠ "use_reading") (h2 : action ≠ "buy_subscription") :
    handle_action user_id action data db = ([("status", .str "ok")], db, []) := by
  simp [handle_action, beq_iff_eq, h1, h2]

/-- C9 witness: the unrecognized action foo at a concrete database. -/
theorem handle_action_unrecognized_witness :
    handle_action 1 "foo" [("score", .int 1)]
        (some ⟨[⟨1, none, none, none, some 3, none⟩], []⟩) =
      ([("status", .str "ok")],
        some ⟨[⟨1, none, none, none, some 3, none⟩], []⟩, []) :=
  handle_action_unrecognized 1 "foo" [("score", .int 1)]
    (some ⟨[⟨1, none, none, none, some 3, none⟩], []⟩)
    (by decide) (by decide)

/-- C7 counterexample: an invoice request with method card (neither stars
nor yookassa) returns the bare error object — not a redirect-to-bot
signal. -/
theorem create_invoice_card_is_error :
    create_invoice 1 "premium" "card" none = ([("status", .str "error")], []) ∧
    (create_invoice 1 "premium" "card" none).1.lookup "redirect" = none := by
  decide

/-- C7 (amended): for a non-stars method, only yookassa is signalled to
complete payment through the bot (status ok, redirect bot, plus one bot
message); every other non-stars method gets the bare status-error object. -/
theorem create_invoice_non_stars (user_id : Int) (product method : String)
    (link : Option String) (h : method ≠ "stars") :
    create_invoice user_id product method link =
      if method = "yookassa" then
        ([("status", .str "ok"), ("redirect", .str "bot")],
          [(user_id, yookassa_text)])
      else ([("status", .str "error")], []) := by
  by_cases hy : method = "yookassa"
  · subst hy
    simp [create_invoice]
  · simp [create_invoice, beq_iff_eq, h, hy]

/-- C7 witness: method card produces the bare error object. -/
theorem create_invoice_non_stars_witness :
    create_invoice 5 "premium" "card" none = ([("status", .str "error")], []) := by
  have h := create_invoice_non_stars 5 "premium" "card" none (by decide)
  simpa using h

/-- C2 counterexample: for the absent user 7 the returned profile carries no
referral-count and no zodiac fields at all, so it does not contain
"referral count 0" or "the default zodiac (Aries)" as the claim states. -/
theorem get_user_data_absent_no_referrals_no_zodiac :
    (get_user_data (some ⟨[], []⟩) 0 7).lookup "referrals" = none ∧
    (get_user_data (some ⟨[], []⟩) 0 7).lookup "zodiac" = none ∧
    (get_user_data (some ⟨[], []⟩) 0 7).lookup "zodiacEmoji" = none := by
  decide

/-- C2 (amended): for a user id with no row in the users table the resolver
returns the well-formed zero-value profile — userId echoed, premium false,
usage counter (freeUsed and readings) 0, bonusDays 0 — rather than an error
or a not-found signal; this profile carries no referral-count and no zodiac
fields. -/
theorem get_user_data_absent_profile (db : Database) (now user_id : Int)
    (h : ∀ r ∈ db.users, r.user_id ≠ user_id) :
    get_user_data (some db) now user_id =
      [("userId", .int user_id), ("isPremium", .bool false),
       ("freeUsed", .int 0), ("readings", .int 0), ("bonusDays", .int 0)] ∧
    (get_user_data (some db) now user_id).lookup "referrals" = none ∧
    (get_user_data (some db) now user_id).lookup "zodiac" = none ∧
    (get_user_data (some db) now user_id).lookup "zodiacEmoji" = none := by
  have hf : findUser db user_id = none := by
    apply List.find?_eq_none.mpr
    intro r hr
    simpa using h r hr
  simp only [get_user_data, hf]
  exact ⟨rfl, rfl, rfl, rfl⟩

/-- C2 witness: user 7 is absent from a store holding only user 5. -/
theorem get_user_data_absent_profile_witness :
    get_user_data
        (some ⟨[⟨5, some "Ann", some "leo", none, some 2, some 1⟩], [(3, 4)]⟩)
        100 7 =
      [("userId", .int 7), ("isPremium", .bool false),
       ("freeUsed", .int 0), ("readings", .int 0), ("bonusDays", .int 0)] ∧
    (get_user_data
        (some ⟨[⟨5, some "Ann", some "leo", none, some 2, some 1⟩], [(3, 4)]⟩)
        100 7).lookup "referrals" = none ∧
    (get_user_data
        (some ⟨[⟨5, some "Ann", some "leo", none, some 2, some 1⟩], [(3, 4)]⟩)
        100 7).lookup "zodiac" = none ∧
    (get_user_data
        (some ⟨[⟨5, some "Ann", some "leo", none, some 2, some 1⟩], [(3, 4)]⟩)
        100 7).lookup "zodiacEmoji" = none :=
  get_user_data_absent_profile
    ⟨[⟨5, some "Ann", some "leo", none, some 2, some 1⟩], [(3, 4)]⟩ 100 7
    (by decide)

/-- C4: for every stored user record the resolved premium flag is a boolean
that is true exactly when a stored subscription expiry exists and lies
strictly after the current time; an expiry equal to or before now, or no
stored expiry, gives false. -/
theorem get_user_data_premium (db : Database) (now user_id : Int)
    (u : UserRow) (hu : findUser db user_id = some u) :
    ∃ b : Bool,
      (get_user_data (some db) now user_id).lookup "isPremium" =
        some (.bool b) ∧
      (b = true ↔ ∃ t, u.subscription_until = some t ∧ now < t) := by
  simp only [get_user_data, hu]
  cases hs : u.subscription_until with
  | none =>
    refine ⟨false, ?_, by simp⟩
    simp only [hs]
    rfl
  | some t =>
    refine ⟨decide (now < t), ?_, ?_⟩
    · simp only [hs]
      rfl
    · simp [hs, decide_eq_true_iff]

/-- C4 witness: user 5 with expiry 200 queried at time 100 is premium. -/
theorem get_user_data_premium_witness :
    ∃ b : Bool,
      (get_user_data
          (some ⟨[⟨5, some "Ann", some "leo", some 200, some 2, some 1⟩], []⟩)
          100 5).lookup "isPremium" = some (.bool b) ∧
      (b = true ↔ ∃ t,
        (⟨5, some "Ann", some "leo", some 200, some 2, some 1⟩ :
          UserRow).subscription_until = some t ∧ (100 : Int) < t) :=
  get_user_data_premium
    ⟨[⟨5, some "Ann", some "leo", some 200, some 2, some 1⟩], []⟩ 100 5
    ⟨5, some "Ann", some "leo", some 200, some 2, some 1⟩ rfl

/-- C8: for a stored record whose zodiac_sign is not one of the 12
recognized keys (a missing value included), the resolver returns the label
and emoji of the first table entry — Aries, Овен/♈. -/
theorem get_user_data_zodiac_fallback (db : Database) (now user_id : Int)
    (u : UserRow) (hu : findUser db user_id = some u)
    (hz : ∀ k, u.zodiac_sign = some k → List.lookup k zodiac_map = none) :
    (get_user_data (some db) now user_id).lookup "zodiac" =
      some (.str "Овен") ∧
    (get_user_data (some db) now user_id).lookup "zodiacEmoji" =
      some (.str "♈") ∧
    zodiac_map.head? = some ("aries", "Овен", "♈") := by
  have hbind : u.zodiac_sign.bind (fun k => List.lookup k zodiac_map) = none := by
    cases hzs : u.zodiac_sign with
    | none => rfl
    | some k => simpa using hz k hzs
  simp only [get_user_data, hu, hbind]
  exact ⟨rfl, rfl, rfl⟩

/-- C8 witness: the unrecognized stored key dragon resolves to Aries. -/
theorem get_user_data_zodiac_fallback_witness :
    (get_user_data
        (some ⟨[⟨5, some "Ann", some "dragon", none, some 2, some 1⟩], []⟩)
        100 5).lookup "zodiac" = some (.str "Овен") ∧
    (get_user_data
        (some ⟨[⟨5, some "Ann", some "dragon", none, some 2, some 1⟩], []⟩)
        100 5).lookup "zodiacEmoji" = some (.str "♈") ∧
    zodiac_map.head? = some ("aries", "Овен", "♈") :=
  get_user_data_zodiac_fallback
    ⟨[⟨5, some "Ann", some "dragon", none, some 2, some 1⟩], []⟩ 100 5
    ⟨5, some "Ann", some "dragon", none, some 2, some 1⟩ rfl
    (fun k hk => by cases hk; rfl)

/-- C6 counterexample: a tarot_reading action for user 1, whose counter is
3, returns ok but leaves the store byte-for-byte unchanged — the counter is
not incremented. -/
theorem handle_action_tarot_no_increment :
    handle_action 1 "tarot_reading" []
        (some ⟨[⟨1, none, none, none, some 3, none⟩], []⟩) =
      ([("status", .str "ok")],
        some ⟨[⟨1, none, none, none, some 3, none⟩], []⟩, []) := by
  decide

/-- C6 (amended): only use_reading increments the user's stored counter, by
exactly 1, best-effort (a storage failure is swallowed and still answers
ok); tarot_reading is unrecognized and returns ok while leaving the store
untouched. -/
theorem handle_action_use_reading_increments (user_id : Int)
    (data : List (String × JValue)) (d : Database) (u : UserRow) (n : Int)
    (hu : findUser d user_id = some u)
    (hn : u.free_readings_used = some n) :
    (∃ d2 : Database,
      handle_action user_id "use_reading" data (some d) =
        ([("status", .str "ok")], some d2, []) ∧
      ∃ u2 : UserRow, findUser d2 user_id = some u2 ∧
        u2.free_readings_used = some (n + 1)) ∧
    handle_action user_id "use_reading" data none =
      ([("status", .str "ok")], none, []) ∧
    handle_action user_id "tarot_reading" data (some d) =
      ([("status", .str "ok")], some d, []) := by
  refine ⟨?_, rfl, rfl⟩
  refine ⟨⟨d.users.map (fun r : UserRow =>
      if r.user_id == user_id
      then { r with free_readings_used := r.free_readings_used.map (· + 1) }
      else r), d.referrals⟩, rfl, ?_⟩
  refine ⟨{ u with free_readings_used := u.free_readings_used.map (· + 1) }, ?_, ?_⟩
  · unfold findUser at hu ⊢
    rw [find?_incr, hu]
    rfl
  · rw [hn]
    rfl

/-- C6 witness: user 1 with counter 3 ends with counter 4 after
use_reading, while storage failure and tarot_reading leave things alone. -/
theorem handle_action_use_reading_increments_witness :
    (∃ d2 : Database,
      handle_action 1 "use_reading" []
          (some ⟨[⟨1, none, none, none, some 3, none⟩], []⟩) =
        ([("status", .str "ok")], some d2, []) ∧
      ∃ u2 : UserRow, findUser d2 1 = some u2 ∧
        u2.free_readings_used = some (3 + 1)) ∧
    handle_action 1 "use_reading" [] none =
      ([("status", .str "ok")], none, []) ∧
    handle_action 1 "tarot_reading" []
        (some ⟨[⟨1, none, none, none, some 3, none⟩], []⟩) =
      ([("status", .str "ok")],
        some ⟨[⟨1, none, none, none, some 3, none⟩], []⟩, []) :=
  handle_action_use_reading_increments 1 []
    ⟨[⟨1, none, none, none, some 3, none⟩], []⟩
    ⟨1, none, none, none, some 3, none⟩ 3 rfl rfl

/-- C1 (modelled from the spec, §4.1): the init-data Verifier returns the
embedded user object for every validly signed init-data string — one whose
detached hash equals the HMAC chain over the remaining pairs — and the
single unauthenticated result (`none`) on a missing hash, on malformed
input, and on any signature whose hash differs from the correct one in a
single character. -/
theorem verifyInitData_contract :
    (∀ raw token pairs h rest u j,
        token ≠ "" →
        parseInitData raw = some pairs →
        extractHash pairs = some (h, rest) →
        h = telegramHash token rest →
        List.lookup "user" rest = some u →
        parseJson u = some j →
        verifyInitData raw token = some j) ∧
    (∀ raw token pairs, parseInitData raw = some pairs →
        List.lookup "hash" pairs = none →
        verifyInitData raw token = none) ∧
    (∀ raw token, parseInitData raw = none →
        verifyInitData raw token = none) ∧
    (∀ raw token pairs h rest, parseInitData raw = some pairs →
        extractHash pairs = some (h, rest) →
        oneCharChange (telegramHash token rest) h →
        verifyInitData raw token = none) := by
  refine ⟨?_, ?_, ?_, ?_⟩
  · intro raw token pairs h rest u j htok hp hx hh hu hj
    subst hh
    simp only [verifyInitData, if_neg htok, hp, hx, hu, hj, if_pos rfl, if_true]
  · intro raw token pairs hp hhash
    have hx : extractHash pairs = none := by
      simp only [extractHash, hhash]
    by_cases htok : token = ""
    · simp only [verifyInitData, if_pos htok]
    · simp only [verifyInitData, if_neg htok, hp, hx]
  · intro raw token hp
    by_cases htok : token = ""
    · simp only [verifyInitData, if_pos htok]
    · simp only [verifyInitData, if_neg htok, hp]
  · intro raw token pairs h rest hp hx hch
    have hne : ¬(h = telegramHash token rest) := fun he =>
      oneCharChange_ne hch he.symm
    by_cases htok : token = ""
    · simp only [verifyInitData, if_pos htok]
    · simp only [verifyInitData, if_neg htok, hp, hx, if_neg hne]

set_option maxRecDepth 200000 in
/-- C1 witness: a concrete correctly-signed payload is accepted and decodes
to its embedded user object. -/
theorem verifyInitData_contract_witness :
    verifyInitData sampleRaw sampleToken = some sampleUser :=
  verifyInitData_contract.1 sampleRaw sampleToken
    [("query_id", "AAHdF6IQAAAAAN0XohDhrOrc"), ("user", sampleUserJson),
     ("auth_date", "1700000000"), ("hash", sampleHashHex)]
    sampleHashHex
    [("query_id", "AAHdF6IQAAAAAN0XohDhrOrc"), ("user", sampleUserJson),
     ("auth_date", "1700000000")]
    sampleUserJson sampleUser
    (by decide) rfl rfl rfl rfl rfl
